import Mathlib

/-!
Verification of the gentleRpc JSON-RPC 2.0 library: a shallow embedding of
the client response validation (client/validation.ts), the client transport
layer (client/http.ts) and the server websocket handler with its emission
fan-out (server/ws.ts), together with theorems about the behaviour of these
functions.
-/

/-- A JSON value as produced by JSON.parse: null, boolean, number, string,
array, or object (an ordered list of key/value fields). Numbers are modelled
as integers; every number this development touches (error codes, ids,
statuses) is integral. -/
inductive Json where
  | null : Json
  | bool (b : Bool) : Json
  | num (n : Int) : Json
  | str (s : String) : Json
  | arr (elems : List Json) : Json
  | obj (fields : List (String × Json)) : Json

/-- JavaScript property access on a decoded JSON value: a field lookup on an
object, undefined (none) on everything else. -/
def Json.getField : Json → String → Option Json
  | Json.obj fields, k => fields.lookup k
  | _, _ => none

/-- The structured error of error.ts: id, message, code and optional data.
The id is one of number, string or null, modelled as a Json value. -/
structure BadServerDataError where
  id : Json
  message : String
  code : Int
  data : Option Json

/-- validateRpcBasis from client/validation.ts: jsonrpc must be the literal
string 2.0 and id must be a number, a string, or null. -/
def validateRpcBasis (d : Json) : Bool :=
  (match d.getField "jsonrpc" with
   | some (Json.str s) => s == "2.0"
   | _ => false) &&
  (match d.getField "id" with
   | some (Json.num _) => true
   | some (Json.str _) => true
   | some Json.null => true
   | _ => false)

/-- validateRpcSuccess from client/validation.ts: the result key is present. -/
def validateRpcSuccess (d : Json) : Bool :=
  (d.getField "result").isSome

/-- The data extracted by validateRpcFailure from client/validation.ts:
error.code when it is a number, error.message when it is a string, and the
optional error.data, or none when the shape check fails. -/
def rpcFailureData (d : Json) : Option (Int × String × Option Json) :=
  match d.getField "error" with
  | some e =>
    match e.getField "code", e.getField "message" with
    | some (Json.num c), some (Json.str m) => some (c, m, e.getField "data")
    | _, _ => none
  | none => none

/-- validateRpcFailure from client/validation.ts: error.code is a number and
error.message is a string. -/
def validateRpcFailure (d : Json) : Bool :=
  (rpcFailureData d).isSome

/-- validateResponse from client/validation.ts: on a valid basis, a success
is returned as-is; otherwise a well-formed failure is raised with its own
id, message, code and data; everything else raises code -32003 with id
null. The success check runs before the failure check. -/
def validateResponse (d : Json) : Except BadServerDataError Json :=
  if validateRpcBasis d then
    if validateRpcSuccess d then
      Except.ok d
    else
      match rpcFailureData d with
      | some (c, m, dat) =>
        Except.error
          { id := (d.getField "id").getD Json.null
            message := m
            code := c
            data := dat }
      | none =>
        Except.error
          { id := Json.null
            message := "Received data is no RPC response object."
            code := -32003
            data := none }
  else
    Except.error
      { id := Json.null
        message := "Received data is no RPC response object."
        code := -32003
        data := none }

/-- The outcome of the fetch call inside send (client/http.ts): either the
promise fulfilled with a response (status, status text, whether the body is
empty by status 204 or a zero content-length, and the result of decoding the
body as JSON), or the fetch promise itself rejected with an error message. -/
inductive FetchOutcome where
  | response (status : Nat) (statusText : String) (emptyBody : Bool)
      (body : Except String Json)
  | rejected (message : String)

/-- The settled state of the promise produced by the then-handler inside
send (client/http.ts): fulfilled with an optional JSON body, rejected with
a BadServerDataError, or rejected with a plain error carrying a message. -/
inductive ThenOutcome where
  | fulfilled (v : Option Json)
  | rejected (e : BadServerDataError)
  | rejectedOther (message : String)

/-- The then-handler of send (client/http.ts): a status outside 200-299
rejects with code -32002; a 204 status or zero content-length fulfils with
no body; otherwise the body is decoded as JSON, whose failure rejects with
the decode error. A rejection of the fetch itself skips this handler. -/
def sendThen : FetchOutcome → ThenOutcome
  | FetchOutcome.rejected m => ThenOutcome.rejectedOther m
  | FetchOutcome.response status statusText emptyBody body =>
    if !(200 ≤ status && status ≤ 299) then
      ThenOutcome.rejected
        { id := Json.null
          message := toString status ++ " '" ++ statusText ++
            "' received instead of 200-299 range."
          code := -32002
          data := none }
    else if emptyBody then
      ThenOutcome.fulfilled none
    else
      match body with
      | Except.ok j => ThenOutcome.fulfilled (some j)
      | Except.error m => ThenOutcome.rejectedOther m

/-- send from client/http.ts: the then-handler followed by the catch-handler.
The catch-handler receives EVERY rejection of the chain, the -32002 error
the then-handler built for a non-success status included, and wraps it into
a new BadServerDataError with the same message but code -32001. -/
def send (o : FetchOutcome) : Except BadServerDataError (Option Json) :=
  match sendThen o with
  | ThenOutcome.fulfilled v => Except.ok v
  | ThenOutcome.rejected e =>
    Except.error { id := Json.null, message := e.message, code := -32001, data := none }
  | ThenOutcome.rejectedOther m =>
    Except.error { id := Json.null, message := m, code := -32001, data := none }

/-- The result field of a validated success response, as read by the callers
of validateResponse (client/http.ts). On a success the key is present. -/
def resultOf (v : Json) : Json :=
  (v.getField "result").getD Json.null

/-- processBatchArray from client/http.ts: validate each response in order
and collect the result fields; the first validation failure aborts the whole
batch with that error. -/
def processBatchArray : List Json → Except BadServerDataError (List Json)
  | [] => Except.ok []
  | r :: rs => do
    let v ← validateResponse r
    let rest ← processBatchArray rs
    Except.ok (resultOf v :: rest)

/-- The JavaScript string conversion of a response id, as used for the
object key in processBatchObject (client/http.ts). Ids of responses that
pass validateResponse are numbers, strings or null; the remaining cases are
never reached past a successful validation. -/
def idKey (r : Json) : String :=
  match r.getField "id" with
  | some (Json.num n) => toString n
  | some (Json.str s) => s
  | some Json.null => "null"
  | some (Json.bool b) => if b then "true" else "false"
  | _ => "undefined"

/-- processBatchObject from client/http.ts: validate each response in order
and record its result field under the string conversion of its id; the first
validation failure aborts the whole batch with that error. -/
def processBatchObject : List Json → Except BadServerDataError (List (String × Json))
  | [] => Except.ok []
  | r :: rs => do
    let v ← validateResponse r
    let rest ← processBatchObject rs
    Except.ok ((idKey r, resultOf v) :: rest)

/-- The two shapes a batch result can take: positional for an array-style
batch input, keyed by id for an object-style batch input. -/
inductive BatchOutput where
  | byPosition (xs : List Json)
  | byId (xs : List (String × Json))

/-- The then-handler of Client.batch (client/http.ts), applied to the body
send resolved with: an empty reply together with the isNotification flag
resolves with nothing; a non-empty JSON array is processed positionally or
by id according to the shape of the batch input; anything else raises code
-32004. -/
def batchThen (isArrayInput isNotif : Bool) (resp : Option Json) :
    Except BadServerDataError (Option BatchOutput) :=
  match resp, isNotif with
  | none, true => Except.ok none
  | r, _ =>
    match r with
    | some (Json.arr (x :: xs)) =>
      if isArrayInput then
        (processBatchArray (x :: xs)).map (fun out => some (BatchOutput.byPosition out))
      else
        (processBatchObject (x :: xs)).map (fun out => some (BatchOutput.byId out))
    | _ =>
      Except.error
        { id := Json.null
          message := "The server returned an invalid batch response."
          code := -32004
          data := none }

/-- The headers of Client.call (client/http.ts): the first component is the
header list sent with this request (when a jwt is supplied, a fresh list is
built from the entries of the stored headers plus one Authorization entry),
the second component is the stored header list after the call, which call
never reassigns or mutates. -/
def callHeaders (stored : List (String × String)) (jwt : Option String) :
    List (String × String) × List (String × String) :=
  (match jwt with
   | some t => stored ++ [("Authorization", "Bearer " ++ t)]
   | none => stored,
   stored)

/-- How many entries of a header list carry the given name. -/
def countHeader (hs : List (String × String)) (k : String) : Nat :=
  (hs.filter (fun p => p.1 == k)).length

/-!
Server side (server/ws.ts). The subscription store of a channel maps a
method name to the set of subscription ids registered under it, modelled as
an association list. The composite of validateRpcRequestObject and
createResponseObject (server validation.ts and creation.ts, files not under
src) is abstracted as a parameter, a function from the synthesized request
object to an optional outbound response object, since the claims about the
fan-out only say that the synthesized object is routed through it.
-/

/-- An emission event raised on the process-wide bus: a method name and a
params value. -/
structure Emission where
  method : String
  params : Json

/-- The request object partialEmitListener (server/ws.ts) synthesizes for
one subscribed id: the fields method, params, id and the jsonrpc literal. -/
def synthRequest (e : Emission) (id : String) : Json :=
  Json.obj
    [("method", Json.str e.method), ("params", e.params),
     ("id", Json.str id), ("jsonrpc", Json.str "2.0")]

/-- The observable state of one websocket channel: whether its emit listener
is currently registered on the bus, whether socket.send succeeds on it, and
whether the socket is closed. -/
structure WsChannel where
  registered : Bool
  alive : Bool
  closed : Bool

/-- The outbound objects one emission produces for one channel before any
send is attempted (partialEmitListener, server/ws.ts): nothing when the
store has no entry for the emitted method, otherwise one routed result per
subscribed id, keeping only the ids for which the route yields a response. -/
def fanoutPayloads (route : Json → Option Json)
    (store : List (String × List String)) (e : Emission) : List Json :=
  match store.lookup e.method with
  | none => []
  | some ids => ids.filterMap (fun id => route (synthRequest e id))

/-- One emission event hitting one channel (partialEmitListener,
server/ws.ts). An unregistered channel is not invoked at all. A registered
channel attempts one socket.send per payload; when the socket is dead each
attempted send raises, the catch swallows the failure and removes the
listener from the bus, so the function is total and the channel ends
deregistered whenever at least one write was attempted on a dead socket.
The second component lists the payloads whose send was attempted. -/
def emitStep (route : Json → Option Json)
    (store : List (String × List String)) (ch : WsChannel) (e : Emission) :
    WsChannel × List Json :=
  if ch.registered then
    let payloads := fanoutPayloads route store e
    if ch.alive then
      (ch, payloads)
    else if payloads.isEmpty then
      (ch, payloads)
    else
      ({ ch with registered := false }, payloads)
  else
    (ch, [])

/-- A sequence of emission events hitting one channel, collecting every
attempted write. -/
def emitRun (route : Json → Option Json)
    (store : List (String × List String)) :
    WsChannel → List Emission → WsChannel × List Json
  | ch, [] => (ch, [])
  | ch, e :: es =>
    let st := emitStep route store ch e
    let rest := emitRun route store st.1 es
    (rest.1, st.2 ++ rest.2)

/-- Channel state right after handleWs (server/ws.ts) set the connection up:
the emit listener is registered on the bus exactly when internal methods are
not disabled; the socket is live and open. -/
def wsConnect (disableInternalMethods : Bool) : WsChannel :=
  { registered := !disableInternalMethods, alive := true, closed := false }

/-- Receipt of a close frame in the handleWs loop (server/ws.ts): unless
internal methods are disabled, the emit listener is removed from the bus;
this happens inside the loop body, before the loop exits. -/
def handleCloseFrame (disableInternalMethods : Bool) (ch : WsChannel) : WsChannel :=
  if disableInternalMethods then ch else { ch with registered := false }

/-- The catch block of handleWs (server/ws.ts) run when reading from the
socket fails: unless internal methods are disabled the emit listener is
removed, and when the socket is not yet closed it is closed with code 1000.
The closeResult argument is the outcome of that close call; its rejection is
swallowed by an attached catch, so the result does not depend on it. The
second component records the close code used, if a close was issued. -/
def handleReadFailure (disableInternalMethods : Bool) (ch : WsChannel)
    (_closeResult : Except String Unit) : WsChannel × Option Nat :=
  let ch1 :=
    if disableInternalMethods then ch else { ch with registered := false }
  if !ch1.closed then
    ({ ch1 with closed := true }, some 1000)
  else
    (ch1, none)

/-- Modelled from the spec: cleanBatch (creation.ts, file not under src)
combines per-item outcomes of a batch, drops the empty outcomes
(notifications produce none), and returns nothing when no outcome remains,
so that no frame is written for an all-notification batch. -/
def cleanBatch (outs : List (Option Json)) : Option (List Json) :=
  let rs := outs.filterMap id
  if rs.isEmpty then none else some rs

/-- The batch branch of the handleWs loop (server/ws.ts) for one inbound
batch frame: each item is turned into its optional response by the
per-item Validator and Builder pipeline (abstracted as respond), the
outcomes go through cleanBatch, and a frame holding the resulting array is
written exactly when cleanBatch produced one. -/
def handleBatchFrame (respond : Json → Option Json) (items : List Json) :
    Option Json :=
  match cleanBatch (items.map respond) with
  | none => none
  | some rs => some (Json.arr rs)

/-! Helper lemmas. -/

theorem emitStep_unregistered (route : Json → Option Json)
    (store : List (String × List String)) (ch : WsChannel) (e : Emission)
    (h : ch.registered = false) : emitStep route store ch e = (ch, []) := by
  simp [emitStep, h]

theorem emitRun_unregistered (route : Json → Option Json)
    (store : List (String × List String)) (ch : WsChannel)
    (h : ch.registered = false) :
    ∀ es, emitRun route store ch es = (ch, []) := by
  intro es
  induction es with
  | nil => rfl
  | cons e es ih =>
    simp [emitRun, emitStep_unregistered route store ch e h, ih]

theorem processBatchArray_allValid (rs : List Json)
    (h : ∀ r ∈ rs, validateResponse r = Except.ok r) :
    processBatchArray rs = Except.ok (rs.map resultOf) := by
  induction rs with
  | nil => rfl
  | cons r rs ih =>
    have hr : validateResponse r = Except.ok r := h r (List.mem_cons_self r rs)
    have hrest := ih (fun x hx => h x (List.mem_cons_of_mem r hx))
    simp [processBatchArray, hr, hrest]
    rfl

theorem processBatchObject_allValid (rs : List Json)
    (h : ∀ r ∈ rs, validateResponse r = Except.ok r) :
    processBatchObject rs = Except.ok (rs.map (fun r => (idKey r, resultOf r))) := by
  induction rs with
  | nil => rfl
  | cons r rs ih =>
    have hr : validateResponse r = Except.ok r := h r (List.mem_cons_self r rs)
    have hrest := ih (fun x hx => h x (List.mem_cons_of_mem r hx))
    simp [processBatchObject, hr, hrest]
    rfl

/-! Claim theorems. -/

/-- Claim C1 (code bug): the claim says a non-2xx transport status rejects
with code -32002 and a malformed body with code -32001, both with id null.
The then-handler of send does build a -32002 error for a non-2xx status, but
the trailing catch-handler receives that rejection too and rewraps it with
code -32001, so the caller observes -32001 in both cases: evaluated here at
a 404 response and at a 200 response whose body fails to decode. -/
theorem send_transport_status_code :
    send (FetchOutcome.response 404 "Not Found" false (Except.ok Json.null)) =
      Except.error
        { id := Json.null
          message := "404 'Not Found' received instead of 200-299 range."
          code := -32001
          data := none } ∧
    (-32001 : Int) ≠ -32002 ∧
    send (FetchOutcome.response 200 "OK" false (Except.error "Unexpected end of JSON input")) =
      Except.error
        { id := Json.null
          message := "Unexpected end of JSON input"
          code := -32001
          data := none } :=
  ⟨rfl, by decide, rfl⟩

/-- Claim C2: validateResponse classifies a decoded JSON value by checking
the basis shape, then the presence of a result key, then the failure shape,
in that order: a valid basis with a result key is returned unchanged; a
valid basis without a result key but with a numeric error.code and a string
error.message raises an error carrying exactly that code, that message and
the basis id; anything else raises code -32003 with id null. -/
theorem validateResponse_classification (v : Json) :
    (validateRpcBasis v = true → validateRpcSuccess v = true →
      validateResponse v = Except.ok v) ∧
    (validateRpcBasis v = true → validateRpcSuccess v = false →
      ∀ c m d, rpcFailureData v = some (c, m, d) →
        validateResponse v =
          Except.error
            { id := (v.getField "id").getD Json.null
              message := m
              code := c
              data := d }) ∧
    (validateRpcBasis v = false ∨
        (validateRpcSuccess v = false ∧ rpcFailureData v = none) →
      validateResponse v =
        Except.error
          { id := Json.null
            message := "Received data is no RPC response object."
            code := -32003
            data := none }) := by
  refine ⟨?_, ?_, ?_⟩
  · intro hb hs
    simp [validateResponse, hb, hs]
  · intro hb hs c m d hf
    simp [validateResponse, hb, hs, hf]
  · rintro (hb | ⟨hs, hf⟩)
    · simp [validateResponse, hb]
    · by_cases hb : validateRpcBasis v <;>
        simp [validateResponse, hb, hs, hf]

/-- Witness for C2 at a failure-shaped response: the raised error carries
the code, message and id of the input. -/
theorem validateResponse_classification_witness :
    validateResponse
        (Json.obj
          [("jsonrpc", Json.str "2.0"), ("id", Json.num 7),
           ("error", Json.obj [("code", Json.num 5), ("message", Json.str "boom")])]) =
      Except.error { id := Json.num 7, message := "boom", code := 5, data := none } :=
  (validateResponse_classification
      (Json.obj
        [("jsonrpc", Json.str "2.0"), ("id", Json.num 7),
         ("error", Json.obj [("code", Json.num 5), ("message", Json.str "boom")])])).2.1
    rfl rfl 5 "boom" none rfl

/-- Claim C10: on a valid basis carrying both a result key and a well-formed
error object, the success check of validateResponse runs first, so the value
is classified as a success and returned unchanged. -/
theorem validateResponse_success_precedence (v : Json)
    (hb : validateRpcBasis v = true) (hs : validateRpcSuccess v = true)
    (_hf : validateRpcFailure v = true) :
    validateResponse v = Except.ok v := by
  simp [validateResponse, hb, hs]

/-- Witness for C10 at a response carrying both a result key and a
well-formed error object. -/
theorem validateResponse_success_precedence_witness :
    validateResponse
        (Json.obj
          [("jsonrpc", Json.str "2.0"), ("id", Json.null), ("result", Json.num 1),
           ("error", Json.obj [("code", Json.num 5), ("message", Json.str "boom")])]) =
      Except.ok
        (Json.obj
          [("jsonrpc", Json.str "2.0"), ("id", Json.null), ("result", Json.num 1),
           ("error", Json.obj [("code", Json.num 5), ("message", Json.str "boom")])]) :=
  validateResponse_success_precedence _ rfl rfl rfl

/-- Claim C6: the then-handler of Client.batch resolves with nothing when
the reply body is empty and the isNotification flag is set; rejects with
code -32004 whenever the reply is not a non-empty JSON array (outside that
exception); and on a non-empty array of valid responses resolves with the
results matched back by position for an array-style input and keyed by the
string conversion of each response id for an object-style input. -/
theorem client_batch_reply_handling (isArr isNotif : Bool) (resp : Option Json) :
    (resp = none → isNotif = true →
      batchThen isArr isNotif resp = Except.ok none) ∧
    ((∀ l : List Json, resp = some (Json.arr l) → l = []) →
      ¬(resp = none ∧ isNotif = true) →
      ∃ e, batchThen isArr isNotif resp = Except.error e ∧ e.code = -32004) ∧
    (∀ rs : List Json, resp = some (Json.arr rs) → rs ≠ [] →
      (∀ r ∈ rs, validateResponse r = Except.ok r) →
      batchThen true isNotif resp =
        Except.ok (some (BatchOutput.byPosition (rs.map resultOf))) ∧
      batchThen false isNotif resp =
        Except.ok (some (BatchOutput.byId (rs.map (fun r => (idKey r, resultOf r)))))) := by
  refine ⟨?_, ?_, ?_⟩
  · rintro rfl hn
    subst hn
    rfl
  · intro hnotarr hne
    match resp, isNotif with
    | none, true => exact absurd ⟨rfl, rfl⟩ hne
    | none, false => exact ⟨_, rfl, rfl⟩
    | some j, isNotif =>
      match j with
      | Json.null => exact ⟨_, rfl, rfl⟩
      | Json.bool b => exact ⟨_, rfl, rfl⟩
      | Json.num n => exact ⟨_, rfl, rfl⟩
      | Json.str s => exact ⟨_, rfl, rfl⟩
      | Json.obj fs => exact ⟨_, rfl, rfl⟩
      | Json.arr l =>
        have : l = [] := hnotarr l rfl
        subst this
        exact ⟨_, rfl, rfl⟩
  · rintro rs rfl hne hv
    match rs, hne with
    | x :: xs, _ =>
      constructor
      · show (processBatchArray (x :: xs)).map _ = _
        rw [processBatchArray_allValid (x :: xs) hv]
        rfl
      · show (processBatchObject (x :: xs)).map _ = _
        rw [processBatchObject_allValid (x :: xs) hv]
        rfl

/-- Witness for C6: a one-element array reply of a valid success response,
processed positionally. -/
theorem client_batch_reply_handling_witness :
    batchThen true false
        (some (Json.arr
          [Json.obj [("jsonrpc", Json.str "2.0"), ("id", Json.num 1), ("result", Json.num 3)]])) =
      Except.ok (some (BatchOutput.byPosition [Json.num 3])) :=
  ((client_batch_reply_handling true false
        (some (Json.arr
          [Json.obj [("jsonrpc", Json.str "2.0"), ("id", Json.num 1), ("result", Json.num 3)]]))).2.2
      [Json.obj [("jsonrpc", Json.str "2.0"), ("id", Json.num 1), ("result", Json.num 3)]]
      rfl (by simp)
      (by
        intro r hr
        rw [List.mem_singleton] at hr
        subst hr
        rfl)).1

/-- Claim C9: a call carrying a bearer credential sends the stored headers
plus exactly one additional Authorization entry, leaves the stored header
list of the client unchanged, and a subsequent call without a credential
sends no Authorization header when the stored list had none. -/
theorem call_auth_header (stored : List (String × String)) (t : String) :
    (callHeaders stored (some t)).1 =
      stored ++ [("Authorization", "Bearer " ++ t)] ∧
    countHeader (callHeaders stored (some t)).1 "Authorization" =
      countHeader stored "Authorization" + 1 ∧
    (callHeaders stored (some t)).2 = stored ∧
    (countHeader stored "Authorization" = 0 →
      countHeader (callHeaders ((callHeaders stored (some t)).2) none).1 "Authorization" = 0) := by
  refine ⟨rfl, ?_, rfl, ?_⟩
  · simp [callHeaders, countHeader, List.filter_append]
  · intro h
    exact h

/-- Witness for C9: after a call with a credential on a client whose stored
headers carry no Authorization entry, the next call without a credential
sends no Authorization header. -/
theorem call_auth_header_witness :
    countHeader
        (callHeaders ((callHeaders [("Content-Type", "application/json")] (some "tok")).2)
          none).1 "Authorization" = 0 :=
  (call_auth_header [("Content-Type", "application/json")] "tok").2.2.2 rfl

/-- Claim C3: for an emission hitting a registered, live channel, nothing is
written when the subscription store has no entry for the emitted method;
otherwise exactly one request object is synthesized per subscribed id,
carrying the jsonrpc literal, the emitted method and params and that id,
each is routed through the Validator and Builder composite, and exactly the
routed results that produced an outbound object are written, the channel
staying registered. -/
theorem emission_fanout_writes (route : Json → Option Json)
    (store : List (String × List String)) (ch : WsChannel) (e : Emission)
    (hreg : ch.registered = true) (halive : ch.alive = true) :
    (store.lookup e.method = none → emitStep route store ch e = (ch, [])) ∧
    (∀ ids, store.lookup e.method = some ids →
      (emitStep route store ch e).2 =
        ids.filterMap (fun id => route (synthRequest e id)) ∧
      (emitStep route store ch e).1 = ch) ∧
    (∀ id, (synthRequest e id).getField "jsonrpc" = some (Json.str "2.0") ∧
      (synthRequest e id).getField "method" = some (Json.str e.method) ∧
      (synthRequest e id).getField "params" = some e.params ∧
      (synthRequest e id).getField "id" = some (Json.str id)) := by
  refine ⟨?_, ?_, ?_⟩
  · intro hnone
    simp [emitStep, fanoutPayloads, hreg, halive, hnone]
  · intro ids hids
    simp [emitStep, fanoutPayloads, hreg, halive, hids]
  · intro id
    exact ⟨rfl, rfl, rfl, rfl⟩

/-- Witness for C3, the scenario of the spec: a channel subscribed to the
pair priceUpdate, sub-1 receives exactly one synthesized request for an
emission of that method (witnessed with the identity route). -/
theorem emission_fanout_writes_witness :
    (emitStep (fun j => some j) [("priceUpdate", ["sub-1"])]
        { registered := true, alive := true, closed := false }
        { method := "priceUpdate", params := Json.obj [("price", Json.num 42)] }).2 =
      [synthRequest
        { method := "priceUpdate", params := Json.obj [("price", Json.num 42)] }
        "sub-1"] :=
  ((emission_fanout_writes (fun j => some j) [("priceUpdate", ["sub-1"])]
        { registered := true, alive := true, closed := false }
        { method := "priceUpdate", params := Json.obj [("price", Json.num 42)] }
        rfl rfl).2.1 ["sub-1"] rfl).1

/-- Claim C4: when an emission causes at least one write attempt on a
channel whose socket raises on send, the channel ends deregistered from the
bus (the failure being swallowed by the catch, emitStep is a total
function), and every later emission run on that channel attempts no write
at all. -/
theorem dead_channel_deregistered (route : Json → Option Json)
    (store : List (String × List String)) (ch : WsChannel) (e : Emission)
    (hreg : ch.registered = true) (hdead : ch.alive = false)
    (hw : (emitStep route store ch e).2 ≠ []) :
    (emitStep route store ch e).1.registered = false ∧
    ∀ es, emitRun route store (emitStep route store ch e).1 es =
      ((emitStep route store ch e).1, []) := by
  by_cases hemp : (fanoutPayloads route store e).isEmpty
  · exfalso
    apply hw
    simp [emitStep, hreg, hdead, hemp]
    exact List.isEmpty_iff.mp hemp
  · have hstep : (emitStep route store ch e).1.registered = false := by
      simp [emitStep, hreg, hdead, hemp]
    exact ⟨hstep, fun es => emitRun_unregistered route store _ hstep es⟩

/-- Witness for C4: a registered channel with a dead socket, one subscribed
id and the identity route is deregistered by one emission. -/
theorem dead_channel_deregistered_witness :
    (emitStep (fun j => some j) [("m", ["a"])]
        { registered := true, alive := false, closed := false }
        { method := "m", params := Json.null }).1.registered = false :=
  (dead_channel_deregistered (fun j => some j) [("m", ["a"])]
      { registered := true, alive := false, closed := false }
      { method := "m", params := Json.null } rfl rfl
      (by
        show [synthRequest { method := "m", params := Json.null } "a"] ≠ []
        exact List.cons_ne_nil _ _)).1

/-- Claim C5: in the handler of a channel whose observer is registered (the
internal methods not disabled), a close frame deregisters the observer
inside the loop body; a read failure deregisters the observer, closes a
not-yet-closed socket with code 1000 and ignores the outcome of that close
(the result does not depend on it, close errors are swallowed); and after
either teardown an emission for a method the channel subscribed to attempts
no write. -/
theorem handleWs_teardown (ch : WsChannel) :
    (handleCloseFrame false ch).registered = false ∧
    (∀ r, (handleReadFailure false ch r).1.registered = false) ∧
    (∀ r, ch.closed = false →
      (handleReadFailure false ch r).1.closed = true ∧
      (handleReadFailure false ch r).2 = some 1000) ∧
    (∀ r r', handleReadFailure false ch r = handleReadFailure false ch r') ∧
    (∀ route store e ids, store.lookup e.method = some ids →
      emitStep route store (handleCloseFrame false ch) e =
        (handleCloseFrame false ch, []) ∧
      ∀ r, emitStep route store (handleReadFailure false ch r).1 e =
        ((handleReadFailure false ch r).1, [])) := by
  have hclose : (handleCloseFrame false ch).registered = false := by
    simp [handleCloseFrame]
  have hread : ∀ r, (handleReadFailure false ch r).1.registered = false := by
    intro r
    by_cases hc : ch.closed <;> simp [handleReadFailure, hc]
  refine ⟨hclose, hread, ?_, fun r r' => rfl, ?_⟩
  · intro r hc
    simp [handleReadFailure, hc]
  · intro route store e ids _
    exact ⟨emitStep_unregistered route store _ e hclose,
      fun r => emitStep_unregistered route store _ e (hread r)⟩

/-- Witness for C5: a read failure on an open, registered channel closes it
with code 1000, whatever the close outcome. -/
theorem handleWs_teardown_witness :
    (handleReadFailure false { registered := true, alive := true, closed := false }
        (Except.error "broken pipe")).2 = some 1000 :=
  ((handleWs_teardown { registered := true, alive := true, closed := false }).2.2.1
      (Except.error "broken pipe") rfl).2

/-- Claim C7: an inbound batch frame produces one output frame holding the
per-item responses in arrival order with the no-response items removed, and
no frame at all when no item produces a response. -/
theorem batch_frame_output (respond : Json → Option Json) (items : List Json) :
    (items.filterMap respond = [] → handleBatchFrame respond items = none) ∧
    (items.filterMap respond ≠ [] →
      handleBatchFrame respond items = some (Json.arr (items.filterMap respond))) := by
  have key : (items.map respond).filterMap id = items.filterMap respond := by
    induction items with
    | nil => rfl
    | cons x xs ih =>
      cases hx : respond x <;> simp [List.filterMap, hx, ih]
  constructor
  · intro h
    simp [handleBatchFrame, cleanBatch, key, h]
  · intro h
    simp [handleBatchFrame, cleanBatch, key, h]

/-- Witness for C7: a single item answered by the identity route yields a
frame holding exactly that response. -/
theorem batch_frame_output_witness :
    handleBatchFrame (fun j => some j) [Json.null] = some (Json.arr [Json.null]) :=
  (batch_frame_output (fun j => some j) [Json.null]).2 (by simp)

/-- Claim C8: a channel opened with disableInternalMethods set never has an
observer registered on the bus, and no sequence of emissions ever produces
a write attempt on it. -/
theorem disabled_internal_methods_no_fanout (route : Json → Option Json)
    (store : List (String × List String)) (es : List Emission) :
    (wsConnect true).registered = false ∧
    emitRun route store (wsConnect true) es = (wsConnect true, []) :=
  ⟨rfl, emitRun_unregistered route store (wsConnect true) rfl es⟩
